import Mathlib

/-!
Verification of the diagnostic-logging module `_stbt/logging.py`.

The module owns two pieces of process-wide mutable state: the global debug
level `_debug_level : Option ℤ` (`none` models Python's `None` before lazy
initialisation from configuration) and the class attribute
`ImageLogger._frame_number : ℕ`.  Stateful Python code is embedded as
explicit state passing; writes to `stderr`, directory creation and image
file writes are recorded as values of an explicit `Event` type; a raised
Python exception is an `Except.error`.  External collaborators that the
module merely calls (`get_config`, `mkdir_p`, `numpy_from_sample`,
`cv2.convertScaleAbs`, `cv2.imwrite`) are modelled as parameters or, where
their behaviour matters, from their documented contract.
-/

namespace Stbt

/-- Numpy sample types (dtypes) that an image buffer handed to the logger can
have.  `float32` and `float64` are the floating-point sample types. -/
inductive Dtype
  | uint8
  | uint16
  | int32
  | float32
  | float64
deriving DecidableEq

/-- A dtype is a floating-point sample type.  This predicate comes from the
specification's words ("if its sample type is floating-point"), for comparison
with the source's dispatch, which tests `img.dtype == numpy.float32`. -/
def Dtype.isFloat : Dtype → Bool
  | .float32 => true
  | .float64 => true
  | _ => false

/-- An image buffer: a numpy array with a sample type and a flat list of pixel
values.  Pixel values are modelled as exact rationals. -/
structure Image where
  dtype : Dtype
  pixels : List ℚ
deriving DecidableEq

/-- OpenCV rounding of a scalar to the nearest integer, modelled as
`⌊x + 1/2⌋`. -/
def cvRound (x : ℚ) : ℤ := ⌊x + 1/2⌋

/-- OpenCV `saturate_cast` to an unsigned 8-bit value: clamp into `[0, 255]`. -/
def saturateU8 (n : ℤ) : ℕ := (min 255 (max 0 n)).toNat

/-- Per-pixel behaviour of `cv2.convertScaleAbs(src, alpha)` (external library,
modelled from its documented contract): `saturate_cast<uchar>(round(|alpha*x|))`. -/
def convertScaleAbsPix (alpha x : ℚ) : ℕ := saturateU8 (cvRound |alpha * x|)

/-- Whole-image behaviour of `cv2.convertScaleAbs(src, alpha)`: every pixel is
rescaled by `convertScaleAbsPix` and the result is an 8-bit image. -/
def convertScaleAbs (img : Image) (alpha : ℚ) : Image :=
  { dtype := Dtype.uint8
    pixels := img.pixels.map (fun x => ((convertScaleAbsPix alpha x : ℕ) : ℚ)) }

/-- The stderr line written by `debug` and `ddebug`:
`"<program-name>: <message>\n"`.  `prog` models `os.path.basename(sys.argv[0])`. -/
def debugLine (prog msg : String) : String := prog ++ ": " ++ msg ++ "\n"

/-- The stderr line written by `warn`: `"<program-name>: warning: <message>\n"`. -/
def warnLine (prog msg : String) : String := prog ++ ": warning: " ++ msg ++ "\n"

/-- Python `debug(msg)`: the list of lines written to stderr, given the current
debug level (the result of `get_debug_level()`). -/
def debug (level : ℤ) (prog msg : String) : List String :=
  if level > 0 then [debugLine prog msg] else []

/-- Python `ddebug(s)`: extra-verbose debug; writes only when the level
exceeds 1. -/
def ddebug (level : ℤ) (prog msg : String) : List String :=
  if level > 1 then [debugLine prog msg] else []

/-- Python `warn(s)`: always writes exactly one warning line. -/
def warn (prog msg : String) : List String := [warnLine prog msg]

/-- Python `get_debug_level()`: returns the cached global `_debug_level`,
lazily seeding it from configuration key `global.verbose` on first read.
Result: the value read, and the updated `_debug_level`. -/
def get_debug_level (dl : Option ℤ) (config_verbose : ℤ) : ℤ × Option ℤ :=
  match dl with
  | none => (config_verbose, some config_verbose)
  | some l => (l, some l)

/-- Python context manager `scoped_debug_level(level)` wrapped around a body.
The body is an arbitrary transformer of the global `_debug_level` that either
returns normally (`Except.ok`) or raises (`Except.error`); nested
`scoped_debug_level` calls are themselves such bodies.  The `finally` block
unconditionally restores `oldlevel`, discarding whatever the body left in the
global. -/
def scoped_debug_level {ε α : Type} (level : ℤ)
    (body : Option ℤ → Option ℤ × Except ε α) (dl : Option ℤ) :
    Option ℤ × Except ε α :=
  let oldlevel := dl
  let afterBody := body (some level)
  (oldlevel, afterBody.2)

/-- The `IncreaseDebugLevel` argparse action defined inside
`argparser_add_verbose_argument`; `num_calls` starts at 0 for each freshly
built parser. -/
structure IncreaseDebugLevel where
  num_calls : ℕ
deriving DecidableEq

/-- One `IncreaseDebugLevel.__call__`: increments `num_calls` and publishes the
new count as the global `_debug_level` and as the namespace attribute.
Result: updated action, new `_debug_level`, value stored on the namespace. -/
def IncreaseDebugLevel.call (a : IncreaseDebugLevel) :
    IncreaseDebugLevel × Option ℤ × ℤ :=
  let n := a.num_calls + 1
  (⟨n⟩, some (n : ℤ), (n : ℤ))

/-- `n` occurrences of the `-v` flag within one CLI parse: the action starts
from `num_calls = 0` and `__call__` fires once per occurrence.  `dl` is the
global `_debug_level` before parsing. -/
def runIncrements (dl : Option ℤ) : ℕ → IncreaseDebugLevel × Option ℤ
  | 0 => (⟨0⟩, dl)
  | n + 1 =>
    let prev := runIncrements dl n
    let step := prev.1.call
    (step.1, step.2.1)

/-- Metadata values (Python `**kwargs` values) stored in `ImageLogger.data`;
they are opaque to the logger, so their content is an arbitrary payload. -/
inductive Val
  | obj (payload : String)
deriving DecidableEq

/-- Python dict assignment `d[k] = v` on an (ordered) dict represented as an
association list: overwrite in place when the key exists, else append. -/
def dictSet {β : Type} (d : List (String × β)) (k : String) (v : β) :
    List (String × β) :=
  if d.any (fun p => p.1 == k) then
    d.map (fun p => if p.1 == k then (k, v) else p)
  else d ++ [(k, v)]

/-- The keys of an association-list dict, in insertion order. -/
def keys {β : Type} (d : List (String × β)) : List String := d.map Prod.fst

/-- Python `set.add` on a set represented as a duplicate-free list. -/
def setAdd (s : List ℤ) (n : ℤ) : List ℤ := if n ∈ s then s else s ++ [n]

/-- I/O side effects of the module, in order of occurrence. -/
inductive Event
  | mkdir (path : String)
  | fileWrite (path : String)
  | errLine (line : String)
deriving DecidableEq

/-- Python raised exceptions. -/
inductive PyErr
  | valueError (msg : String)
deriving DecidableEq

/-- Python `"%05d" % n`: decimal digits zero-padded to width 5. -/
def pad5 (n : ℕ) : String :=
  let s := toString n
  String.mk (List.replicate (5 - s.length) '0') ++ s

/-- `os.path.join("stbt-debug", name, "%05d" % frame_number)`. -/
def outdirFor (name : String) (frame_number : ℕ) : String :=
  "stbt-debug" ++ "/" ++ name ++ "/" ++ pad5 frame_number

/-- The `ImageLogger` instance state.  In Python a disabled instance may leave
`name`, `frame_number`, `outdir`, `images`, `pyramid_levels` and `data` unset
(construction returns early); every such unset attribute is modelled by its
default (`none`, `""`, `[]`), and every operation guards on `enabled` before
touching them, exactly as the source does. -/
structure ImageLogger where
  enabled : Bool
  name : String
  frame_number : Option ℕ
  outdir : String
  images : List (String × Image)
  pyramid_levels : List ℤ
  data : List (String × Val)
deriving DecidableEq

/-- `ImageLogger.__init__(name, **kwargs)`.  `level` is the value returned by
`get_debug_level()` at construction time; `ctr` is the class attribute
`ImageLogger._frame_number`; `mkdirFails path = true` models the external
`mkdir_p` (directory creation with parents, not part of this file) raising
`OSError` for `path`.  Returns the instance, the updated class counter and the
I/O events.  On `OSError` the handler calls `warn` naming the directory and
permanently disables the instance; construction itself never raises. -/
def ImageLogger.create (prog : String) (level : ℤ) (name : String)
    (kwargs : List (String × Val)) (mkdirFails : String → Bool) (ctr : ℕ) :
    ImageLogger × ℕ × List Event :=
  let enabled : Bool := decide (level > 1)
  if enabled then
    let frame_number := ctr
    let ctr' := ctr + 1
    let outdir := outdirFor name frame_number
    if mkdirFails outdir then
      ({ enabled := false, name := name, frame_number := some frame_number,
         outdir := "", images := [], pyramid_levels := [], data := [] },
       ctr',
       [Event.errLine (warnLine prog
          ("Failed to create directory \x27" ++ outdir
            ++ "\x27; won\x27t save debug images."))])
    else
      ({ enabled := true, name := name, frame_number := some frame_number,
         outdir := outdir, images := [], pyramid_levels := [],
         data := kwargs.foldl (fun d kv => dictSet d kv.1 kv.2) [] },
       ctr', [Event.mkdir outdir])
  else
    ({ enabled := false, name := "", frame_number := none, outdir := "",
       images := [], pyramid_levels := [], data := [] },
     ctr, [])

/-- `ImageLogger.set(**kwargs)`: merge the pairs into `data`; no-op when
disabled. -/
def ImageLogger.set (lg : ImageLogger) (kwargs : List (String × Val)) :
    ImageLogger :=
  if lg.enabled then
    { lg with data := kwargs.foldl (fun d kv => dictSet d kv.1 kv.2) lg.data }
  else lg

/-- The stored name after optional pyramid-level tagging:
`"level%d-%s" % (pyramid_level, name)` when a level is given. -/
def pyramidName (pyramid_level : Option ℤ) (name : String) : String :=
  match pyramid_level with
  | some n => "level" ++ toString n ++ "-" ++ name
  | none => name

/-- The image value that `imwrite` records and persists: a `float32` buffer is
rescaled by `cv2.convertScaleAbs(image, alpha=255)`; any other buffer is
copied as-is (`img.copy()`, the identity on the value). -/
def processImage (image : Image) : Image :=
  if image.dtype = Dtype.float32 then convertScaleAbs image 255 else image

/-- `ImageLogger.imwrite(name, image, pyramid_level)`.  Returns the updated
instance, the I/O events, and `Except.error` when the duplicate-name
`ValueError` is raised.  Faithful to the source's order: the no-op guard, then
pyramid tagging (which mutates `pyramid_levels` before any check), then the
duplicate check, then conversion, recording under `images`, and the file
write to `<outdir>/<name>.png`. -/
def ImageLogger.imwrite (lg : ImageLogger) (name : String) (image : Image)
    (pyramid_level : Option ℤ) : ImageLogger × List Event × Except PyErr Unit :=
  if lg.enabled then
    let name1 := pyramidName pyramid_level name
    let lg1 :=
      match pyramid_level with
      | some n => { lg with pyramid_levels := setAdd lg.pyramid_levels n }
      | none => lg
    if name1 ∈ keys lg1.images then
      (lg1, [],
       Except.error (PyErr.valueError
         ("Image for name \x27" ++ name1 ++ "\x27 already logged")))
    else
      let img := processImage image
      ({ lg1 with images := dictSet lg1.images name1 img },
       [Event.fileWrite (lg1.outdir ++ "/" ++ name1 ++ ".png")],
       Except.ok ())
  else (lg, [], Except.ok ())

/-- A post-construction operation on an `ImageLogger` instance. -/
inductive Op
  | setOp (kwargs : List (String × Val))
  | imwriteOp (name : String) (image : Image) (pyramid_level : Option ℤ)

/-- Run one operation, keeping the state and the events it produced. -/
def runOp (lg : ImageLogger) : Op → ImageLogger × List Event
  | Op.setOp kwargs => (lg.set kwargs, [])
  | Op.imwriteOp name image pyramid_level =>
    let r := lg.imwrite name image pyramid_level
    (r.1, r.2.1)

/-- Run a sequence of operations on an instance, accumulating events. -/
def runOps (lg : ImageLogger) : List Op → ImageLogger × List Event
  | [] => (lg, [])
  | op :: ops =>
    let r := runOp lg op
    let rest := runOps r.1 ops
    (rest.1, r.2 ++ rest.2)

/-- One recorder-creation request: the debug level in force at that moment,
the identifier, the initial metadata, and the mkdir environment. -/
structure CreateReq where
  level : ℤ
  name : String
  kwargs : List (String × Val)
  mkdirFails : String → Bool

/-- Create a sequence of recorders in one process, threading the class
attribute `ImageLogger._frame_number` through the constructions. -/
def runCreates (prog : String) : List CreateReq → ℕ → List ImageLogger × ℕ
  | [], ctr => ([], ctr)
  | r :: rs, ctr =>
    let c := ImageLogger.create prog r.level r.name r.kwargs r.mkdirFails ctr
    let rest := runCreates prog rs c.2.1
    (c.1 :: rest.1, rest.2)

/-- The sequence numbers the recorders actually received, in creation order
(a recorder disabled at birth by a low debug level receives none). -/
def seqNumbers (lgs : List ImageLogger) : List ℕ :=
  lgs.filterMap ImageLogger.frame_number

end Stbt

namespace Stbt

/-! Helper lemmas shared by the claim theorems. -/

/-- A disabled instance ignores `set`. -/
theorem set_disabled (lg : ImageLogger) (kwargs : List (String × Val))
    (h : lg.enabled = false) : lg.set kwargs = lg := by
  simp [ImageLogger.set, h]

/-- A disabled instance ignores `imwrite`: no state change, no events, no
exception. -/
theorem imwrite_disabled (lg : ImageLogger) (name : String) (image : Image)
    (pl : Option ℤ) (h : lg.enabled = false) :
    lg.imwrite name image pl = (lg, [], Except.ok ()) := by
  simp [ImageLogger.imwrite, h]

/-- A disabled instance is inert under every operation sequence: the state is
unchanged (in particular `enabled` stays `false`) and no event is produced. -/
theorem runOps_disabled (lg : ImageLogger) (h : lg.enabled = false) :
    ∀ ops : List Op, runOps lg ops = (lg, []) := by
  intro ops
  induction ops with
  | nil => rfl
  | cons op ops ih =>
    cases op with
    | setOp kwargs => simp [runOps, runOp, set_disabled lg kwargs h, ih]
    | imwriteOp name image pl =>
      simp [runOps, runOp, imwrite_disabled lg name image pl h, ih]

/-- After `n` action calls the internal counter reads `n`. -/
theorem runIncrements_calls_aux (dl : Option ℤ) :
    ∀ n : ℕ, (runIncrements dl n).1.num_calls = n := by
  intro n
  induction n with
  | zero => rfl
  | succ n ih => simp [runIncrements, IncreaseDebugLevel.call, ih]

/-- Construction below verbosity 2 yields the minimal inert instance and does
no directory or counter work. -/
theorem create_low_level (prog name : String) (level : ℤ)
    (kwargs : List (String × Val)) (mf : String → Bool) (ctr : ℕ)
    (h : ¬ 1 < level) :
    ImageLogger.create prog level name kwargs mf ctr
      = ({ enabled := false, name := "", frame_number := none, outdir := "",
           images := [], pyramid_levels := [], data := [] }, ctr, []) := by
  simp [ImageLogger.create, h]

/-- Construction at verbosity above 1 assigns the current class counter as the
sequence number and increments the counter, whether or not `mkdir_p` fails. -/
theorem create_enabled_case (prog name : String) (level : ℤ)
    (kwargs : List (String × Val)) (mf : String → Bool) (ctr : ℕ)
    (h : 1 < level) :
    (ImageLogger.create prog level name kwargs mf ctr).1.frame_number = some ctr ∧
    (ImageLogger.create prog level name kwargs mf ctr).2.1 = ctr + 1 := by
  by_cases hm : mf (outdirFor name ctr) = true <;>
    simp [ImageLogger.create, h, hm]

/-- Unfolding `seqNumbers` over the head recorder. -/
theorem seqNumbers_cons (lg : ImageLogger) (lgs : List ImageLogger) :
    seqNumbers (lg :: lgs)
      = (match lg.frame_number with
         | some fn => fn :: seqNumbers lgs
         | none => seqNumbers lgs) := by
  cases h : lg.frame_number <;> simp [seqNumbers, List.filterMap_cons, h]

/-- Every sequence number handed out from class counter `ctr` onwards is at
least `ctr`. -/
theorem runCreates_lb (prog : String) :
    ∀ (reqs : List CreateReq) (ctr n : ℕ),
      n ∈ seqNumbers (runCreates prog reqs ctr).1 → ctr ≤ n := by
  intro reqs
  induction reqs with
  | nil => intro ctr n h; simp [runCreates, seqNumbers] at h
  | cons r rs ih =>
    intro ctr n h
    by_cases hl : 1 < r.level
    · obtain ⟨hfn, hctr⟩ :=
        create_enabled_case prog r.name r.level r.kwargs r.mkdirFails ctr hl
      simp only [runCreates] at h
      rw [seqNumbers_cons, hfn, hctr] at h
      rcases List.mem_cons.mp h with hh | hh
      · omega
      · have := ih (ctr + 1) n hh
        omega
    · rw [show runCreates prog (r :: rs) ctr
          = ((ImageLogger.create prog r.level r.name r.kwargs r.mkdirFails ctr).1
              :: (runCreates prog rs (ImageLogger.create prog r.level r.name r.kwargs r.mkdirFails ctr).2.1).1,
             (runCreates prog rs (ImageLogger.create prog r.level r.name r.kwargs r.mkdirFails ctr).2.1).2) from rfl,
         create_low_level prog r.name r.level r.kwargs r.mkdirFails ctr hl] at h
      rw [seqNumbers_cons] at h
      simp only at h
      exact ih ctr n h

/-- Inserting a fresh key into a dict appends it. -/
theorem dictSet_fresh {β : Type} (d : List (String × β)) (k : String) (v : β)
    (h : k ∉ keys d) : dictSet d k v = d ++ [(k, v)] := by
  rw [dictSet, if_neg]
  simp only [List.any_eq_true, beq_iff_eq]
  intro hex
  obtain ⟨p, hp, hk⟩ := hex
  exact h (List.mem_map.mpr ⟨p, hp, hk⟩)

/-- Behaviour of `imwrite` on an enabled instance when the (post-tag) name is
already recorded: no event, `images` and `data` untouched, `ValueError`
raised. -/
theorem imwrite_dup_case (lg : ImageLogger) (name : String) (image : Image)
    (pl : Option ℤ) (hen : lg.enabled = true)
    (hdup : pyramidName pl name ∈ keys lg.images) :
    (lg.imwrite name image pl).1.images = lg.images ∧
    (lg.imwrite name image pl).1.data = lg.data ∧
    (lg.imwrite name image pl).2.1 = [] ∧
    (lg.imwrite name image pl).2.2
      = Except.error (PyErr.valueError
          ("Image for name \x27" ++ pyramidName pl name
            ++ "\x27 already logged")) := by
  cases pl with
  | none => simp [ImageLogger.imwrite, hen, pyramidName] at hdup ⊢; simp [hdup]
  | some n => simp [ImageLogger.imwrite, hen, pyramidName] at hdup ⊢; simp [hdup]

/-- Behaviour of `imwrite` on an enabled instance for a fresh name: the
processed image is recorded under the tagged name and one file write occurs. -/
theorem imwrite_fresh_case (lg : ImageLogger) (name : String) (image : Image)
    (pl : Option ℤ) (hen : lg.enabled = true)
    (hfresh : pyramidName pl name ∉ keys lg.images) :
    (lg.imwrite name image pl).1.images
      = lg.images ++ [(pyramidName pl name, processImage image)] ∧
    (lg.imwrite name image pl).2.1
      = [Event.fileWrite (lg.outdir ++ "/" ++ pyramidName pl name ++ ".png")] ∧
    (lg.imwrite name image pl).2.2 = Except.ok () := by
  cases pl with
  | none =>
    simp [ImageLogger.imwrite, hen, pyramidName] at hfresh ⊢
    simp [hfresh, dictSet_fresh lg.images _ _ (by simpa [keys] using hfresh)]
  | some n =>
    simp [ImageLogger.imwrite, hen, pyramidName] at hfresh ⊢
    simp [hfresh, dictSet_fresh lg.images _ _ (by simpa [keys] using hfresh)]

/-- Pixel rescaling is monotone on nonnegative inputs. -/
theorem convertScaleAbsPix_mono (x y : ℚ) (hx : 0 ≤ x) (hxy : x ≤ y) :
    convertScaleAbsPix 255 x ≤ convertScaleAbsPix 255 y := by
  unfold convertScaleAbsPix cvRound saturateU8
  have h255x : (0:ℚ) ≤ 255 * x := by positivity
  have h255y : (0:ℚ) ≤ 255 * y := by nlinarith
  rw [abs_of_nonneg h255x, abs_of_nonneg h255y]
  have hf : ⌊255 * x + 1/2⌋ ≤ ⌊255 * y + 1/2⌋ :=
    Int.floor_le_floor (by nlinarith)
  exact Int.toNat_le_toNat (min_le_min (le_refl _) (max_le_max (le_refl _) hf))

/-- Rescaled pixels never exceed 255. -/
theorem convertScaleAbsPix_le_255 (x : ℚ) : convertScaleAbsPix 255 x ≤ 255 := by
  unfold convertScaleAbsPix saturateU8
  have h := min_le_left (255:ℤ) (max 0 (cvRound |255 * x|))
  omega

/-- Input 0.0 rescales to 0. -/
theorem convertScaleAbsPix_zero : convertScaleAbsPix 255 0 = 0 := by
  norm_num [convertScaleAbsPix, cvRound, saturateU8]

/-- Input 1.0 rescales to 255. -/
theorem convertScaleAbsPix_one : convertScaleAbsPix 255 1 = 255 := by
  norm_num [convertScaleAbsPix, cvRound, saturateU8]
  rfl

/-- A concrete enabled recorder (identifier "match", sequence number 7) for
concrete instantiations. -/
def matchLogger : ImageLogger :=
  { enabled := true, name := "match", frame_number := some 7,
    outdir := outdirFor "match" 7, images := [], pyramid_levels := [], data := [] }

/-- A concrete float32 heatmap buffer with values spanning `[0.0, 1.0]`. -/
def heatmap : Image := { dtype := Dtype.float32, pixels := [0, 1/2, 1] }

/-- A concrete 8-bit video-frame buffer. -/
def frame : Image := { dtype := Dtype.uint8, pixels := [0] }

/-- A concrete double-precision floating-point buffer. -/
def heatmap64 : Image := { dtype := Dtype.float64, pixels := [1/2] }

/-- A concrete enabled recorder that has already stored an image named
"source". -/
def dupLogger : ImageLogger := { matchLogger with images := [("source", frame)] }

end Stbt

namespace Stbt

/-- C1: for every sequence of nested `scoped_debug_level` (withLevel) calls,
the global verbosity level observed immediately after the outermost call exits
equals the level observed immediately before it was entered, whether the body
returned normally or raised (the body is an arbitrary state transformer with
an arbitrary `Except` outcome, so arbitrary nesting and failure are covered);
the overridden value is never leaked past the scope's exit, and the body's
outcome is propagated unchanged. -/
theorem scoped_debug_level_restores {ε α : Type} (level level2 : ℤ)
    (body body2 : Option ℤ → Option ℤ × Except ε α) (dl : Option ℤ)
    (config_verbose : ℤ) :
    (scoped_debug_level level body dl).1 = dl ∧
    (get_debug_level (scoped_debug_level level body dl).1 config_verbose).1
      = (get_debug_level dl config_verbose).1 ∧
    (scoped_debug_level level
        (fun s => scoped_debug_level level2 body2 s) dl).1 = dl ∧
    (scoped_debug_level level body dl).2 = (body (some level)).2 :=
  ⟨rfl, rfl, rfl, rfl⟩

/-- C2: a recorder whose `enabled` flag is false — whether because the
verbosity level was below 2 at construction or for any other reason, such as
directory-creation failure — is inert: every subsequent `imwrite` (storeImage)
and `set` (setMetadata) call leaves the state unchanged (so it never becomes
enabled again) and produces no I/O event; and construction at level 0 or 1
performs no directory creation, no counter work and no warning, and later
`imwrite` calls on that instance write no file. -/
theorem disabled_recorder_inert (lg : ImageLogger) (ops : List Op)
    (prog name : String) (level : ℤ) (kwargs : List (String × Val))
    (mkdirFails : String → Bool) (ctr : ℕ)
    (hlg : lg.enabled = false) (hlevel : level ≤ 1) :
    runOps lg ops = (lg, []) ∧
    (ImageLogger.create prog level name kwargs mkdirFails ctr).1.enabled = false ∧
    (ImageLogger.create prog level name kwargs mkdirFails ctr).2.1 = ctr ∧
    (ImageLogger.create prog level name kwargs mkdirFails ctr).2.2 = [] ∧
    runOps (ImageLogger.create prog level name kwargs mkdirFails ctr).1 ops
      = ((ImageLogger.create prog level name kwargs mkdirFails ctr).1, []) := by
  have hc := create_low_level prog name level kwargs mkdirFails ctr (by omega)
  refine ⟨runOps_disabled lg hlg ops, ?_, ?_, ?_, ?_⟩
  · rw [hc]
  · rw [hc]
  · rw [hc]
  · exact runOps_disabled _ (by rw [hc]) ops

/-- Witness for C2 at a concrete disabled instance, a concrete operation list
and level 1. -/
theorem disabled_recorder_inert_witness :
    runOps { enabled := false, name := "", frame_number := none, outdir := "",
             images := [], pyramid_levels := [], data := [] }
        [Op.setOp [("key", Val.obj "v")], Op.imwriteOp "source" frame none]
      = ({ enabled := false, name := "", frame_number := none, outdir := "",
           images := [], pyramid_levels := [], data := [] }, []) ∧
    (ImageLogger.create "stbt" 1 "match" [] (fun _ => false) 1).1.enabled
      = false :=
  ⟨(disabled_recorder_inert
      { enabled := false, name := "", frame_number := none, outdir := "",
        images := [], pyramid_levels := [], data := [] }
      [Op.setOp [("key", Val.obj "v")], Op.imwriteOp "source" frame none]
      "stbt" "match" 1 [] (fun _ => false) 1 rfl (by decide)).1,
   (disabled_recorder_inert
      { enabled := false, name := "", frame_number := none, outdir := "",
        images := [], pyramid_levels := [], data := [] }
      [] "stbt" "match" 1 [] (fun _ => false) 1 rfl (by decide)).2.1⟩

/-- C3: across any sequence of recorder constructions in one process — same or
different identifiers, arbitrary debug levels in force at each construction,
arbitrary mkdir outcomes — the sequence numbers the recorders receive are
strictly increasing in creation order, hence unique and never repeating. -/
theorem seq_numbers_strictly_increasing (prog : String) (reqs : List CreateReq)
    (ctr : ℕ) :
    List.Pairwise (· < ·) (seqNumbers (runCreates prog reqs ctr).1) := by
  induction reqs generalizing ctr with
  | nil => simp [runCreates, seqNumbers]
  | cons r rs ih =>
    by_cases hl : 1 < r.level
    · obtain ⟨hfn, hctr⟩ :=
        create_enabled_case prog r.name r.level r.kwargs r.mkdirFails ctr hl
      show List.Pairwise (· < ·) (seqNumbers
        ((ImageLogger.create prog r.level r.name r.kwargs r.mkdirFails ctr).1
          :: (runCreates prog rs (ImageLogger.create prog r.level r.name r.kwargs r.mkdirFails ctr).2.1).1))
      rw [seqNumbers_cons, hfn, hctr]
      exact List.Pairwise.cons
        (fun b hb => Nat.lt_of_succ_le (runCreates_lb prog rs (ctr + 1) b hb))
        (ih (ctr + 1))
    · show List.Pairwise (· < ·) (seqNumbers
        ((ImageLogger.create prog r.level r.name r.kwargs r.mkdirFails ctr).1
          :: (runCreates prog rs (ImageLogger.create prog r.level r.name r.kwargs r.mkdirFails ctr).2.1).1))
      rw [create_low_level prog r.name r.level r.kwargs r.mkdirFails ctr hl]
      rw [seqNumbers_cons]
      simp only
      exact ih ctr

end Stbt

namespace Stbt

/-- C4 counterexample: a double-precision (`float64`) buffer has a
floating-point sample type, yet `imwrite` persists it as-is — the source
dispatches on `img.dtype == numpy.float32` only — so the stored image is not
the 8-bit rescale the claim requires for every floating-point sample type. -/
theorem float64_image_not_rescaled :
    Dtype.isFloat heatmap64.dtype = true ∧
    processImage heatmap64 = heatmap64 ∧
    processImage heatmap64 ≠ convertScaleAbs heatmap64 255 ∧
    (matchLogger.imwrite "a" heatmap64 none).1.images = [("a", heatmap64)] := by
  refine ⟨rfl, by simp [processImage, heatmap64], ?_, ?_⟩
  · intro h
    have hd := congrArg Image.dtype h
    simp [processImage, heatmap64, convertScaleAbs] at hd
  · have := imwrite_fresh_case matchLogger "a" heatmap64 none rfl
      (by simp [matchLogger, keys, pyramidName])
    simpa [matchLogger, pyramidName,
           show processImage heatmap64 = heatmap64 by simp [processImage, heatmap64]]
      using this.1

/-- C4 (amended): for every enabled recorder, `imwrite` (storeImage) records
and persists the processed buffer under the tagged name; a buffer whose sample
type is single-precision floating point (`float32`) — the only
floating-point type the source rescales — is rescaled pixel-wise by
multiplying by 255 with rounding and clamping to 8-bit grayscale, so that
input 0.0 maps to 0, input 1.0 maps to 255, the output is monotone in the
input on nonnegative values and never exceeds 255; a buffer of any other
sample type (including `float64`) is copied and persisted as-is. -/
theorem imwrite_rescales_float32_only (lg : ImageLogger) (name : String)
    (image : Image) (pl : Option ℤ) (x y : ℚ)
    (hen : lg.enabled = true) (hfresh : pyramidName pl name ∉ keys lg.images)
    (hx : 0 ≤ x) (hxy : x ≤ y) :
    (lg.imwrite name image pl).1.images
      = lg.images ++ [(pyramidName pl name, processImage image)] ∧
    (image.dtype = Dtype.float32 →
      processImage image = convertScaleAbs image 255 ∧
      (processImage image).dtype = Dtype.uint8 ∧
      (processImage image).pixels
        = image.pixels.map (fun v => ((convertScaleAbsPix 255 v : ℕ) : ℚ))) ∧
    (image.dtype ≠ Dtype.float32 → processImage image = image) ∧
    convertScaleAbsPix 255 0 = 0 ∧
    convertScaleAbsPix 255 1 = 255 ∧
    convertScaleAbsPix 255 x ≤ convertScaleAbsPix 255 y ∧
    convertScaleAbsPix 255 y ≤ 255 := by
  refine ⟨(imwrite_fresh_case lg name image pl hen hfresh).1,
          fun h => ?_, fun h => ?_,
          convertScaleAbsPix_zero, convertScaleAbsPix_one,
          convertScaleAbsPix_mono x y hx hxy, convertScaleAbsPix_le_255 y⟩
  · simp [processImage, h, convertScaleAbs]
  · simp [processImage, h]

/-- Witness for C4 (amended) at a concrete enabled recorder, a concrete
float32 heatmap and the concrete pixel values 0 and 1. -/
theorem imwrite_rescales_float32_only_witness :
    (matchLogger.imwrite "heat" heatmap none).1.images
      = matchLogger.images ++ [(pyramidName none "heat", processImage heatmap)] ∧
    convertScaleAbsPix 255 0 = 0 ∧
    convertScaleAbsPix 255 1 = 255 :=
  ⟨(imwrite_rescales_float32_only matchLogger "heat" heatmap none 0 1 rfl
      (by simp [matchLogger, keys]) (le_refl 0) zero_le_one).1,
   (imwrite_rescales_float32_only matchLogger "heat" heatmap none 0 1 rfl
      (by simp [matchLogger, keys]) (le_refl 0) zero_le_one).2.2.2.1,
   (imwrite_rescales_float32_only matchLogger "heat" heatmap none 0 1 rfl
      (by simp [matchLogger, keys]) (le_refl 0) zero_le_one).2.2.2.2.1⟩

/-- C5: on an enabled recorder, `imwrite` (storeImage) with a name that (after
any pyramid-level tagging) already exists in that recorder's `images` mapping
raises the duplicate-name error (`ValueError`, the spec's
DuplicateArtifactError) surfaced to the caller, while storing the same name on
a different recorder instance whose mapping does not contain it succeeds
independently. -/
theorem imwrite_duplicate_raises (lg lg2 : ImageLogger) (name : String)
    (image image2 : Image) (pl : Option ℤ)
    (hen : lg.enabled = true) (hdup : pyramidName pl name ∈ keys lg.images)
    (hen2 : lg2.enabled = true) (hfresh : pyramidName pl name ∉ keys lg2.images) :
    (lg.imwrite name image pl).2.2
      = Except.error (PyErr.valueError
          ("Image for name \x27" ++ pyramidName pl name
            ++ "\x27 already logged")) ∧
    (lg2.imwrite name image2 pl).2.2 = Except.ok () :=
  ⟨(imwrite_dup_case lg name image pl hen hdup).2.2.2,
   (imwrite_fresh_case lg2 name image2 pl hen2 hfresh).2.2⟩

/-- Witness for C5: a recorder that already stored "source" raises on a second
"source", while a fresh recorder accepts the same name. -/
theorem imwrite_duplicate_raises_witness :
    (dupLogger.imwrite "source" frame none).2.2
      = Except.error (PyErr.valueError
          ("Image for name \x27" ++ pyramidName none "source"
            ++ "\x27 already logged")) ∧
    (matchLogger.imwrite "source" frame none).2.2 = Except.ok () :=
  imwrite_duplicate_raises dupLogger matchLogger "source" frame frame none
    rfl (by simp [dupLogger, matchLogger, keys, pyramidName]) rfl
    (by simp [matchLogger, keys, pyramidName])

end Stbt

namespace Stbt

/-- C6: when construction runs with verbosity above 1 and directory creation
fails, exactly one warning is emitted and it names the failed directory path
(the path's characters occur inside the warning line), the failure is handled
locally (construction returns normally — its result type carries no
exception), the instance's `enabled` flag is false, and every subsequent
`imwrite`/`set` call is a silent no-op. -/
theorem create_mkdir_failure_disables (prog name : String) (level : ℤ)
    (kwargs : List (String × Val)) (mkdirFails : String → Bool) (ctr : ℕ)
    (ops : List Op)
    (hlevel : 1 < level) (hfail : mkdirFails (outdirFor name ctr) = true) :
    (ImageLogger.create prog level name kwargs mkdirFails ctr).1.enabled = false ∧
    (ImageLogger.create prog level name kwargs mkdirFails ctr).2.2
      = [Event.errLine (warnLine prog
          ("Failed to create directory \x27" ++ outdirFor name ctr
            ++ "\x27; won\x27t save debug images."))] ∧
    (outdirFor name ctr).data <:+: (warnLine prog
          ("Failed to create directory \x27" ++ outdirFor name ctr
            ++ "\x27; won\x27t save debug images.")).data ∧
    runOps (ImageLogger.create prog level name kwargs mkdirFails ctr).1 ops
      = ((ImageLogger.create prog level name kwargs mkdirFails ctr).1, []) := by
  have hc : ImageLogger.create prog level name kwargs mkdirFails ctr
      = ({ enabled := false, name := name, frame_number := some ctr,
           outdir := "", images := [], pyramid_levels := [], data := [] },
         ctr + 1,
         [Event.errLine (warnLine prog
            ("Failed to create directory \x27" ++ outdirFor name ctr
              ++ "\x27; won\x27t save debug images."))]) := by
    simp [ImageLogger.create, hlevel, hfail]
  refine ⟨by rw [hc], by rw [hc], ?_, runOps_disabled _ (by rw [hc]) ops⟩
  refine ⟨(prog ++ ": warning: " ++ "Failed to create directory \x27").data,
          ("\x27; won\x27t save debug images." ++ "\n").data, ?_⟩
  simp [warnLine, String.data_append, List.append_assoc]

/-- Witness for C6 at level 2 with an always-failing mkdir environment. -/
theorem create_mkdir_failure_disables_witness :
    (ImageLogger.create "stbt" 2 "match" [] (fun _ => true) 1).1.enabled
      = false ∧
    (ImageLogger.create "stbt" 2 "match" [] (fun _ => true) 1).2.2
      = [Event.errLine (warnLine "stbt"
          ("Failed to create directory \x27" ++ outdirFor "match" 1
            ++ "\x27; won\x27t save debug images."))] :=
  ⟨(create_mkdir_failure_disables "stbt" "match" 2 [] (fun _ => true) 1 []
      (by decide) rfl).1,
   (create_mkdir_failure_disables "stbt" "match" 2 [] (fun _ => true) 1 []
      (by decide) rfl).2.1⟩

/-- C7: within one CLI parse, each `IncreaseDebugLevel` call increases the
internal counter by one from its previous value and sets the global level to
the counter's new value, and after `n` calls (`n ≥ 1`) the counter reads `n`
and the global level equals `n`. -/
theorem increment_sets_level_to_count (dl : Option ℤ) (n : ℕ)
    (a : IncreaseDebugLevel) (h : n ≠ 0) :
    a.call.1.num_calls = a.num_calls + 1 ∧
    a.call.2.1 = some ((a.num_calls : ℤ) + 1) ∧
    (runIncrements dl n).1.num_calls = n ∧
    (runIncrements dl n).2 = some (n : ℤ) := by
  refine ⟨rfl, by simp [IncreaseDebugLevel.call],
          runIncrements_calls_aux dl n, ?_⟩
  cases n with
  | zero => exact absurd rfl h
  | succ n =>
    simp [runIncrements, IncreaseDebugLevel.call, runIncrements_calls_aux dl n]

/-- Witness for C7: two `-v` occurrences give level 2. -/
theorem increment_sets_level_to_count_witness :
    (runIncrements none 2).2 = some ((2 : ℕ) : ℤ) :=
  (increment_sets_level_to_count none 2 ⟨0⟩ (by decide)).2.2.2

/-- C8: `debug` writes nothing at level 0 and exactly the one line
`"<program-name>: <message>\n"` at level ≥ 1; `ddebug` (verboseDebug) writes
nothing below level 2 and exactly that one line at level ≥ 2; `warn` always
writes exactly the one line `"<program-name>: warning: <message>\n"`,
regardless of level. -/
theorem text_emitter_lines (level : ℤ) (prog msg : String) :
    (level = 0 → debug level prog msg = []) ∧
    (1 ≤ level → debug level prog msg = [debugLine prog msg]) ∧
    (level < 2 → ddebug level prog msg = []) ∧
    (2 ≤ level → ddebug level prog msg = [debugLine prog msg]) ∧
    warn prog msg = [warnLine prog msg] := by
  refine ⟨fun h => ?_, fun h => ?_, fun h => ?_, fun h => ?_, rfl⟩
  · simp [debug, h]
  · simp [debug, show level > 0 by omega]
  · simp [ddebug, show ¬ level > 1 by omega]
  · simp [ddebug, show level > 1 by omega]

/-- Witness for C8 at levels 0, 1 and 2. -/
theorem text_emitter_lines_witness :
    debug 0 "stbt" "m" = [] ∧
    debug 1 "stbt" "m" = [debugLine "stbt" "m"] ∧
    ddebug 1 "stbt" "m" = [] ∧
    ddebug 2 "stbt" "m" = [debugLine "stbt" "m"] ∧
    warn "stbt" "m" = [warnLine "stbt" "m"] :=
  ⟨(text_emitter_lines 0 "stbt" "m").1 rfl,
   (text_emitter_lines 1 "stbt" "m").2.1 (by decide),
   (text_emitter_lines 1 "stbt" "m").2.2.1 (by decide),
   (text_emitter_lines 2 "stbt" "m").2.2.2.1 (by decide),
   (text_emitter_lines 2 "stbt" "m").2.2.2.2⟩

end Stbt

namespace Stbt

/-- C9: an enabled recorder's output directory is
`stbt-debug/<identifier>/<sequence number zero-padded to 5 digits>`; and in
the concrete scenario — identifier "match", sequence number 7 — the directory
is `stbt-debug/match/00007`, storing image "source" writes
`stbt-debug/match/00007/source.png`, and storing image "diff" at pyramid
level 1 writes `stbt-debug/match/00007/level1-diff.png` and records 1 in
`pyramid_levels`. -/
theorem output_directory_layout (prog name : String) (level : ℤ)
    (kwargs : List (String × Val)) (mkdirFails : String → Bool) (ctr : ℕ)
    (hlevel : 1 < level) (hok : mkdirFails (outdirFor name ctr) = false) :
    (ImageLogger.create prog level name kwargs mkdirFails ctr).1.outdir
      = "stbt-debug" ++ "/" ++ name ++ "/" ++ pad5 ctr ∧
    outdirFor "match" 7 = "stbt-debug/match/00007" ∧
    (matchLogger.imwrite "source" heatmap none).2.1
      = [Event.fileWrite "stbt-debug/match/00007/source.png"] ∧
    (matchLogger.imwrite "diff" heatmap (some 1)).2.1
      = [Event.fileWrite "stbt-debug/match/00007/level1-diff.png"] ∧
    (matchLogger.imwrite "diff" heatmap (some 1)).1.pyramid_levels = [1] := by
  refine ⟨?_, rfl, ?_, ?_, ?_⟩
  · have hok2 : mkdirFails ("stbt-debug/" ++ name ++ "/" ++ pad5 ctr) = false := by
      simpa [outdirFor] using hok
    simp [ImageLogger.create, hlevel, outdirFor, hok2]
  · rw [(imwrite_fresh_case matchLogger "source" heatmap none rfl
      (by simp [matchLogger, keys])).2.1]
    rfl
  · rw [(imwrite_fresh_case matchLogger "diff" heatmap (some 1) rfl
      (by simp [matchLogger, keys])).2.1]
    rfl
  · simp [ImageLogger.imwrite, matchLogger, keys, setAdd]

/-- Witness for C9 at level 2 with a succeeding mkdir environment. -/
theorem output_directory_layout_witness :
    (ImageLogger.create "stbt" 2 "match" [] (fun _ => false) 7).1.outdir
      = "stbt-debug" ++ "/" ++ "match" ++ "/" ++ pad5 7 ∧
    outdirFor "match" 7 = "stbt-debug/match/00007" :=
  ⟨(output_directory_layout "stbt" "match" 2 [] (fun _ => false) 7
      (by decide) rfl).1,
   (output_directory_layout "stbt" "match" 2 [] (fun _ => false) 7
      (by decide) rfl).2.1⟩

/-- C10: on an enabled recorder, an `imwrite` call that fails with the
duplicate-name error writes no file (and produces no I/O event at all) and
leaves both the `images` mapping and the `data` (metadata) mapping unchanged:
the duplicate check runs before any persistence or recording of the image. -/
theorem imwrite_duplicate_no_side_effects (lg : ImageLogger) (name : String)
    (image : Image) (pl : Option ℤ)
    (hen : lg.enabled = true) (hdup : pyramidName pl name ∈ keys lg.images) :
    (lg.imwrite name image pl).2.1 = [] ∧
    (lg.imwrite name image pl).1.images = lg.images ∧
    (lg.imwrite name image pl).1.data = lg.data ∧
    (lg.imwrite name image pl).2.2
      = Except.error (PyErr.valueError
          ("Image for name \x27" ++ pyramidName pl name
            ++ "\x27 already logged")) :=
  ⟨(imwrite_dup_case lg name image pl hen hdup).2.2.1,
   (imwrite_dup_case lg name image pl hen hdup).1,
   (imwrite_dup_case lg name image pl hen hdup).2.1,
   (imwrite_dup_case lg name image pl hen hdup).2.2.2⟩

/-- Witness for C10 at a concrete recorder that already stored "source". -/
theorem imwrite_duplicate_no_side_effects_witness :
    (dupLogger.imwrite "source" frame none).2.1 = [] ∧
    (dupLogger.imwrite "source" frame none).1.images = dupLogger.images :=
  ⟨(imwrite_duplicate_no_side_effects dupLogger "source" frame none rfl
      (by simp [dupLogger, matchLogger, keys, pyramidName])).1,
   (imwrite_duplicate_no_side_effects dupLogger "source" frame none rfl
      (by simp [dupLogger, matchLogger, keys, pyramidName])).2.1⟩

end Stbt
